import Mathlib

/-!
Shallow embedding of `src/inficon.py` (Python 2), the Inficon vacuum-gauge
polling tool.  Bytes are modelled as `Nat` values (a Python 2 `str` is a byte
string; `chr`/`ord` mediate between characters and their byte values), byte
streams as `List Nat` consumed from the front, and the serial port as such a
stream: `port.read(n)` yields the next `min n (length remaining)` bytes, a
shortfall being pyserial's read timeout (which returns the bytes it got,
possibly the empty string).
-/

namespace Inficon

/-- The byte `STX = chr(2)` (line 43): the start-of-frame marker. -/
def STXv : Nat := 2

/-- Source `checksum(line)` (lines 60-65): `chk = 0`; `chk += ord(char)` for each
character; returns `chr(chk & 255)`, i.e. the byte value `chk &&& 255`. -/
def checksum (line : List Nat) : Nat :=
  (line.foldl (fun chk c => chk + c) 0) &&& 255

/-- The byte string passed to the single `port.write` call in `send`
(line 70): `STX + chr(len(cmd)) + cmd + str(checksum(cmd))`.  (`str` applied
to the one-character string returned by `checksum` is the identity.) -/
def send (cmd : List Nat) : List Nat :=
  STXv :: cmd.length :: (cmd ++ [checksum cmd])

/-- Function `send` issues exactly one `port.write` call (line 70); this is the list of
write operations it performs when no write timeout occurs. -/
def sendWrites (cmd : List Nat) : List (List Nat) :=
  [send cmd]

/-- Model of `port.read(1)`: the next byte of the stream, or a timeout (pyserial
returns the empty string, modelled as `none`) when the stream is exhausted. -/
def read1 : List Nat → Option Nat × List Nat
  | [] => (Option.none, [])
  | b :: s => (some b, s)

/-- The `while start != STX` hunt loop of `receive` (lines 76-86).  The
source reads one byte per iteration with a counter `attempt` starting at 1 and
bails out (`return ''`) when a read fails to yield STX while
`attempt > retries`; since `attempt` is incremented once per read, at most
`retries + 1` reads ever happen.  `fuel` is the number of reads still
permitted, so the loop is entered with `fuel = retries + 1`; returning with
`false` is the `Timeout while waiting for STX` exit. -/
def huntSTX : List Nat → Nat → Bool × List Nat
  | s, 0 => (false, s)
  | s, fuel + 1 =>
    match read1 s with
    | (start, s1) => if start = some STXv then (true, s1) else huntSTX s1 fuel

/-- The Python return value of `receive`: a (possibly empty) string, the
value `None` (the function falls off its final `else` branch, line 104,
without a `return`), or an uncaught exception. -/
inductive PyRet where
  | str (s : List Nat)
  | pyNone
  | exn
deriving DecidableEq, Repr

/-- Source `receive(port, retries=5)` (lines 74-104) on a byte stream, returning the
Python return value together with the unconsumed remainder of the stream:
hunt for STX (up to `retries + 1` single-byte reads); read one size byte
(`ord(port.read(1))` raises `TypeError` on an empty read, modelled as
`.exn`); read `size` data bytes (`port.read(size)` returns up to `size`
bytes); on a short read write a diagnostic and `return ''`; read the one-byte
checksum and compare it with `checksum(data)`: on equality `return data`,
otherwise write `Invalid message: ...` and fall off the end (Python `None`). -/
def receive (stream : List Nat) (retries : Nat) : PyRet × List Nat :=
  match huntSTX stream (retries + 1) with
  | (false, s) => (.str [], s)
  | (true, s) =>
    match read1 s with
    | (Option.none, s1) => (.exn, s1)
    | (some size, s1) =>
      let data := s1.take size
      let s2 := s1.drop size
      if data.length ≠ size then (.str [], s2)
      else
        let chk := s2.take 1
        let s3 := s2.drop 1
        if chk = [checksum data] then (.str data, s3) else (.pyNone, s3)

/-- Byte-level ASCII digit test, `\d` of the pattern on line 187 (Python 2
`re` on a byte string: exactly the bytes of `0`-`9`). -/
def isDigitB (c : Nat) : Bool :=
  48 ≤ c && c ≤ 57

/-- Viability of a backtracking stop for the greedy `.*` of
`re.match(r"(.*-\d+)", reply)` (line 187): position `p` can end the `.*` part
when `reply[p]` is the hyphen `-` (45), the next byte exists and is a digit,
and `.*` could actually cover `reply[0:p]`, i.e. no newline (10, which `.`
never matches) occurs there. -/
def goodPos (s : List Nat) (p : Nat) : Bool :=
  (s.getD p 0 == 45) && (p + 1 < s.length) && isDigitB (s.getD (p + 1) 0)
    && (s.take p).all (fun c => c != 10)

/-- The backtracking position the greedy `.*` settles on: the largest viable
one (the engine tries the longest `.*` first), or `none` when the regex does
not match. -/
def lastGood (s : List Nat) : Option Nat :=
  (List.range s.length).foldl
    (fun acc p => if goodPos s p then some p else acc) Option.none

/-- Value of `match.group(1)` of `re.match(r"(.*-\d+)", reply)` in the polling loop
(lines 187-191), or `[]` when there is no match (the loop then appends `''`):
everything up to and including the chosen hyphen, then the greedy maximal
digit run after it. -/
def extract (s : List Nat) : List Nat :=
  match lastGood s with
  | some p => s.take (p + 1) ++ (s.drop (p + 1)).takeWhile isDigitB
  | Option.none => []

/-- Modelled from the spec's words, for comparison with `extract` (claim C5):
the reading is "the leading substring matching the pattern
`<digits and decimal point>-<digits>` (digits/dot, hyphen, digits)" — a
nonempty run of digits and dots, a hyphen, a nonempty digit run — and a
payload with no such match yields an empty reading. -/
def specPatternExtract (s : List Nat) : List Nat :=
  let pre := s.takeWhile (fun c => isDigitB c || c == 46)
  match s.drop pre.length with
  | 45 :: r =>
    let ds := r.takeWhile isDigitB
    if pre.length ≠ 0 ∧ ds.length ≠ 0 then pre ++ 45 :: ds else []
  | _ => []

/-- One gauge's step of the polling loop body (lines 186-191), applied to the
value `receive` returned: a decoded reply string is matched against the
pattern and contributes a reading (possibly empty); but `re.match` applied to
Python `None` raises a `TypeError`, and an exception out of `receive` also
propagates — neither is caught by the `except (KeyboardInterrupt, EOFError)`
handler on line 202, so the process aborts with a traceback. -/
inductive PollStep where
  | reading (r : List Nat)
  | crash
deriving DecidableEq, Repr

/-- See `PollStep`. -/
def pollGauge (rcv : PyRet) : PollStep :=
  match rcv with
  | .str s => .reading (extract s)
  | .pyNone => .crash
  | .exn => .crash

/-- The command the polling loop sends for a gauge entry (line 186):
the literal string concatenation `"S0" + gauge`. -/
def pollCmd (gauge : String) : String :=
  "S0" ++ gauge

/-- Python 2 whitespace accepted (and stripped) around the digits by
`int(string)`: space, tab, linefeed, carriage return, vertical tab, form
feed. -/
def isPySpace (c : Char) : Bool :=
  c = ' ' || c = '\t' || c = '\n' || c = '\r' || c = '\x0b' || c = '\x0c'

/-- Character-level ASCII digit test for `int(string)`. -/
def isDigitC (c : Char) : Bool :=
  '0' ≤ c && c ≤ '9'

/-- Value of a base-10 digit string. -/
def digitsVal (ds : List Char) : Nat :=
  ds.foldl (fun a c => 10 * a + (c.toNat - 48)) 0

/-- Python 2 `int(string)` (used at line 145): strips surrounding whitespace,
allows one optional `+` or `-` sign immediately before a nonempty run of
base-10 digits; anything else raises `ValueError`, modelled as `none`. -/
def pyInt (l : List Char) : Option Int :=
  let t := (((l.dropWhile isPySpace).reverse).dropWhile isPySpace).reverse
  match t with
  | [] => Option.none
  | '+' :: ds =>
    if ds ≠ [] ∧ ds.all isDigitC then some (digitsVal ds : Int) else Option.none
  | '-' :: ds =>
    if ds ≠ [] ∧ ds.all isDigitC then some (-(digitsVal ds : Int)) else Option.none
  | ds =>
    if ds.all isDigitC then some (digitsVal ds : Int) else Option.none

/-- The gauge sanity check for one entry (line 145):
`assert int(gauge) in range(10)` succeeds iff `int` parses the entry and the
value lies in 0..9 (`range(10)` is the list `[0, ..., 9]`). -/
def gaugeOK (g : String) : Bool :=
  match pyInt g.data with
  | some n => decide (0 ≤ n ∧ n < 10)
  | Option.none => false

/-- The message printed for the first offending gauge entry (lines 147 and
150): `int` raising `ValueError` and the assertion failing print different
texts. -/
def invalidMsg (g : String) : String :=
  match pyInt g.data with
  | Option.none => "Invalid gauge: " ++ g
  | some _ => "Invalid gauge " ++ g ++ " (should be 0-9)"

/-- The first gauge entry that fails the sanity check, scanning in input
order as the `for gauge in gauges` loop does. -/
def firstInvalid (gs : List String) : Option String :=
  gs.find? (fun g => !gaugeOK g)

/-- Python `str.split(',')` on the character list: splits at every comma,
keeping empty pieces (`''.split(',') == ['']`). -/
def splitComma : List Char → List (List Char)
  | [] => [[]]
  | c :: rest =>
    match splitComma rest, c == ',' with
    | r, true => [] :: r
    | h :: t, false => (c :: h) :: t
    | [], false => [[c]]

/-- Model of `ARGS.gauges.split(',')` (line 142). -/
def pySplit (s : String) : List String :=
  (splitComma s.data).map (fun cs => String.mk cs)

/-- Externally visible startup effects of `__main__` after argument parsing
(lines 141-174), in program order: console prints, `sys.exit`, and the
opening of the serial port. -/
inductive Effect where
  | printLine (s : String)
  | exited (code : Nat)
  | openSerial
deriving DecidableEq, Repr

/-- The startup effect trace as a function of the `--gauges` argument (with
the default `STDOUT` log, the only console sink): the sanity loop
(lines 141-151) prints a diagnostic for the first invalid entry of
`ARGS.gauges.split(',')` and exits with code 1; otherwise the CSV header
`datetime,<gauges>` is printed (line 154) and then the serial port is opened
(line 163). -/
def startupTrace (gaugesArg : String) : List Effect :=
  match firstInvalid (pySplit gaugesArg) with
  | some g => [.printLine (invalidMsg g), .exited 1]
  | Option.none => [.printLine ("datetime," ++ gaugesArg), .openSerial]

/-- Whether `needle` occurs as a contiguous run inside `hay` (used to state
what the emitted diagnostics do or do not mention). -/
def containsSeq (needle hay : List Char) : Bool :=
  (List.range (hay.length + 1)).any
    (fun i => ((hay.drop i).take needle.length) == needle)

/-- Python `str.format` substitutes only brace-delimited replacement fields; on a
template containing none it returns the template unchanged, whatever the
arguments.  The error messages on lines 72 and 95 use `%s` markers (which
`format` does not substitute) in the template. -/
def formatNoFields (template : String) (_args : List String) : String :=
  template

/-- The diagnostic written to stderr when `port.write` raises
`serial.SerialTimeoutException` (lines 71-72):
`'%s: serial timeout sending command: %s'.format(str(datetime.datetime.now()), cmd)`. -/
def sendTimeoutMsg (now : String) (cmd : String) : String :=
  formatNoFields "%s: serial timeout sending command: %s" [now, cmd]

/-! Helper lemmas. -/

/-- Masking with 255 is reduction mod 256. -/
theorem land255 (n : Nat) : n &&& 255 = n % 256 := by
  have h := Nat.and_pow_two_sub_one_eq_mod n 8
  norm_num at h
  exact h

/-- The checksum is the sum of the byte values mod 256. -/
theorem checksum_eq (l : List Nat) : checksum l = l.sum % 256 := by
  unfold checksum
  rw [land255, List.sum_eq_foldl]

/-- Hunting finds STX after up to `fuel - 1` leading non-STX bytes,
consuming exactly the garbage and the STX byte. -/
theorem huntSTX_found (g : List Nat) :
    ∀ (fuel : Nat) (s : List Nat), g.length < fuel → (∀ b ∈ g, b ≠ 2) →
    huntSTX (g ++ 2 :: s) fuel = (true, s) := by
  induction g with
  | nil =>
    intro fuel s hf _
    cases fuel with
    | zero => omega
    | succ n => simp [huntSTX, read1, STXv]
  | cons b g ih =>
    intro fuel s hf hb
    cases fuel with
    | zero => simp at hf
    | succ n =>
      have hb2 : b ≠ 2 := hb b (by simp)
      simp only [List.cons_append, huntSTX, read1, STXv]
      rw [if_neg (by simp [hb2])]
      exact ih n s (by simpa using hf) (fun x hx => hb x (by simp [hx]))

/-- Hunting over a stream whose first `fuel` bytes (or whole content, if
shorter) contain no STX fails, consuming exactly those bytes. -/
theorem huntSTX_fail :
    ∀ (fuel : Nat) (s : List Nat), (∀ b ∈ s.take fuel, b ≠ 2) →
    huntSTX s fuel = (false, s.drop fuel) := by
  intro fuel
  induction fuel with
  | zero => intro s _; simp [huntSTX]
  | succ n ih =>
    intro s hs
    cases s with
    | nil =>
      have h0 : huntSTX ([] : List Nat) n = (false, ([] : List Nat).drop n) :=
        ih [] (by simp)
      simp only [huntSTX, read1, STXv]
      rw [if_neg (by simp)]
      simpa using h0
    | cons b rest =>
      have hb : b ≠ 2 := hs b (by simp)
      simp only [huntSTX, read1, STXv]
      rw [if_neg (by simp [hb])]
      rw [ih rest (fun x hx => hs x (by simp [List.take_succ_cons, hx]))]
      simp

/-- Decoding: `receive` on any stream made of at most `retries` non-STX garbage bytes,
then a frame produced by `send`, then anything: the frame's payload is
returned and exactly the garbage and frame bytes are consumed. -/
theorem receive_frame (g cmd rest : List Nat) (retries : Nat)
    (hg : g.length ≤ retries) (hgb : ∀ b ∈ g, b ≠ 2) :
    receive (g ++ send cmd ++ rest) retries = (.str cmd, rest) := by
  have hstream : g ++ send cmd ++ rest
      = g ++ 2 :: (cmd.length :: (cmd ++ ([checksum cmd] ++ rest))) := by
    simp [send, STXv]
  unfold receive
  rw [hstream, huntSTX_found g (retries + 1) _ (by omega) hgb]
  simp only [read1, List.take_left, List.drop_left]
  rw [if_neg (by simp)]
  simp

/-! Claim theorems. -/

/-- Claim C1 (code bug): on the frame `02 01 41 00` — payload `A`, wrong
checksum byte `0x00` — `receive` does report the ChecksumMismatch diagnostic,
but its checksum-mismatch branch (line 104) has no `return`, so the call
evaluates to Python `None` rather than the empty string the claim (and the
sibling error branches) promise; the polling loop then passes that `None` to
`re.match`, which raises an uncaught `TypeError` and aborts the process
instead of continuing the cycle with an empty CSV field. -/
theorem c1_checksum_mismatch_yields_none_and_crash :
    receive [2, 1, 65, 0] 5 = (.pyNone, []) ∧
    PyRet.pyNone ≠ .str [] ∧
    pollGauge .pyNone = .crash := by
  refine ⟨by decide, by decide, by decide⟩

/-- Claim C2: round-trip — for every command of length at most 255 whose
entries are byte values, feeding the frame produced by `send` to `receive`
succeeds and returns exactly the original command, consuming the whole
frame. -/
theorem c2_roundtrip (cmd : List Nat)
    (_hlen : cmd.length ≤ 255) (_hbytes : ∀ b ∈ cmd, b < 256) :
    receive (send cmd) 5 = (.str cmd, []) := by
  have h := receive_frame [] cmd [] 5 (by simp) (by simp)
  simpa using h

/-- Witness for C2 at the command `"S00"`. -/
theorem c2_roundtrip_witness :
    receive (send [83, 48, 48]) 5 = (.str [83, 48, 48], []) :=
  c2_roundtrip [83, 48, 48] (by decide) (by decide)

/-- Claim C3 counterexample: on a stream of eight non-STX zero bytes,
`receive` (default `retries = 5`) consumes six bytes — six single-byte reads
that fail to yield STX, one more than the claimed bound of five — before
reporting the sync timeout. -/
theorem c3_counterexample :
    receive (List.replicate 8 0) 5 = (.str [], [0, 0]) ∧
    8 - (receive (List.replicate 8 0) 5).2.length = 6 ∧
    ¬ (8 - (receive (List.replicate 8 0) 5).2.length ≤ 5) := by
  refine ⟨by decide, by decide, by decide⟩

/-- Claim C3 (amended): while hunting for STX, `receive` performs at most
`retries + 1` single-byte reads (six with the default `retries = 5`, since
the `attempt` counter starts at 1 and the loop exits once a failed read
happens with `attempt > retries`); if none of the first `retries + 1` reads
yields STX it reports the sync-timeout diagnostic and returns an empty
result, having consumed exactly those bytes, and the polling caller records
an empty reading rather than crashing. -/
theorem c3_sync_timeout_bound (stream : List Nat) (retries : Nat)
    (h : ∀ b ∈ stream.take (retries + 1), b ≠ 2) :
    receive stream retries = (.str [], stream.drop (retries + 1)) ∧
    pollGauge (.str []) = .reading [] := by
  constructor
  · unfold receive
    rw [huntSTX_fail (retries + 1) stream h]
  · rfl

/-- Witness for the amended C3 on a stream of seven non-STX bytes with
the default five retries. -/
theorem c3_sync_timeout_bound_witness :
    receive [0, 0, 0, 0, 0, 0, 0] 5 = (.str [], [0]) ∧
    pollGauge (.str []) = .reading [] :=
  c3_sync_timeout_bound [0, 0, 0, 0, 0, 0, 0] 5 (by decide)

/-- Claim C4 counterexample: six garbage bytes before a valid frame for
payload `A` exceed the hunt bound, so `receive` gives up with an empty
result and leaves the entire valid frame unread — it does not decode the
frame, contradicting tolerance of arbitrarily many non-STX bytes. -/
theorem c4_counterexample :
    receive ([0, 0, 0, 0, 0, 0] ++ send [65]) 5 = (.str [], [2, 1, 65, 65]) ∧
    PyRet.str [] ≠ .str [65] := by
  refine ⟨by decide, by decide⟩

/-- Claim C4 (amended): for every input stream consisting of at most
`retries` (five by default) non-STX bytes followed by a valid frame,
`receive` decodes that frame correctly (returns its payload), consuming
exactly the garbage bytes plus the frame bytes from the stream. -/
theorem c4_garbage_tolerance (g cmd rest : List Nat)
    (hg : g.length ≤ 5) (hgb : ∀ b ∈ g, b ≠ 2)
    (_hlen : cmd.length ≤ 255) (_hbytes : ∀ b ∈ cmd, b < 256) :
    receive (g ++ send cmd ++ rest) 5 = (.str cmd, rest) :=
  receive_frame g cmd rest 5 hg hgb

/-- Witness for the amended C4: five garbage bytes, the frame for `A`,
and one trailing byte. -/
theorem c4_garbage_tolerance_witness :
    receive ([255, 255, 255, 255, 255] ++ send [65] ++ [9]) 5
      = (.str [65], [9]) :=
  c4_garbage_tolerance [255, 255, 255, 255, 255] [65] [9]
    (by decide) (by decide) (by decide) (by decide)

/-- Claim C5 counterexample: on the spec's own example payload
`"1.23E-04 OK"`, the code's pattern `(.*-\d+)` captures `"1.23E-04"`
(the `.*` happily covers the non-digit `E`), while the claimed pattern
`<digits and decimal point>-<digits>` matches no leading substring at all
(the `E` stops the digits-and-dot run before any hyphen), so the two
disagree. -/
theorem c5_counterexample :
    extract [49, 46, 50, 51, 69, 45, 48, 52, 32, 79, 75]
      = [49, 46, 50, 51, 69, 45, 48, 52] ∧
    specPatternExtract [49, 46, 50, 51, 69, 45, 48, 52, 32, 79, 75] = [] ∧
    extract [49, 46, 50, 51, 69, 45, 48, 52, 32, 79, 75]
      ≠ specPatternExtract [49, 46, 50, 51, 69, 45, 48, 52, 32, 79, 75] := by
  refine ⟨by decide, by decide, by decide⟩

/-- Claim C5 (amended): the extractor applies the anchored greedy pattern
`(.*-\d+)` — arbitrary non-newline characters (not only digits and dots), a
hyphen, then digits — keeping the prefix through the last hyphen-digit run
and discarding trailing text: payload `"1.23E-04 OK"` yields `"1.23E-04"`;
a payload with no viable hyphen-digit position (e.g. `"ERROR"`) yields an
empty reading, not an error. -/
theorem c5_extraction (s : List Nat)
    (h : ∀ p < s.length, goodPos s p = false) :
    extract s = [] ∧
    extract [49, 46, 50, 51, 69, 45, 48, 52, 32, 79, 75]
      = [49, 46, 50, 51, 69, 45, 48, 52] := by
  constructor
  · have hnone : lastGood s = Option.none := by
      unfold lastGood
      have : ∀ (l : List Nat) (acc : Option Nat), (∀ p ∈ l, goodPos s p = false) →
          l.foldl (fun acc p => if goodPos s p then some p else acc) acc = acc := by
        intro l
        induction l with
        | nil => intro acc _; rfl
        | cons x xs ih =>
          intro acc hl
          simp only [List.foldl_cons, hl x (by simp), if_false]
          exact ih acc (fun p hp => hl p (by simp [hp]))
      exact this _ _ (fun p hp => h p (List.mem_range.mp hp))
    unfold extract
    rw [hnone]
  · decide

/-- Witness for the amended C5 at the payload `"ERROR"`. -/
theorem c5_extraction_witness :
    extract [69, 82, 82, 79, 82] = [] ∧
    extract [49, 46, 50, 51, 69, 45, 48, 52, 32, 79, 75]
      = [49, 46, 50, 51, 69, 45, 48, 52] :=
  c5_extraction [69, 82, 82, 79, 82] (by decide)

/-- Claim C6: for every command of length at most 255, `send` writes — in a
single `port.write` call — exactly STX (2), one length byte equal to the
command's byte length, the command bytes, and one checksum byte equal to the
sum of the command's byte values mod 256. -/
theorem c6_wire_format (cmd : List Nat) (_hlen : cmd.length ≤ 255) :
    sendWrites cmd = [2 :: cmd.length :: (cmd ++ [cmd.sum % 256])] := by
  unfold sendWrites send STXv
  rw [checksum_eq]

/-- Witness for C6 at the command `"S00"`. -/
theorem c6_wire_format_witness :
    sendWrites [83, 48, 48] = [2 :: [83, 48, 48].length
      :: ([83, 48, 48] ++ [[83, 48, 48].sum % 256])] :=
  c6_wire_format [83, 48, 48] (by decide)

/-- Claim C7: whenever the comma-separated gauge list contains an entry that
is non-numeric or an integer outside 0–9, startup prints only the
invalid-gauge diagnostic and exits with code 1; the serial port is never
opened and the CSV header line is never printed. -/
theorem c7_invalid_gauge_exits (arg g : String)
    (h : firstInvalid (pySplit arg) = some g) :
    startupTrace arg = [.printLine (invalidMsg g), .exited 1] ∧
    Effect.exited 1 ∈ startupTrace arg ∧
    Effect.openSerial ∉ startupTrace arg ∧
    (∀ s, Effect.printLine s ∈ startupTrace arg → s = invalidMsg g) := by
  unfold startupTrace
  rw [h]
  refine ⟨rfl, by simp, by simp, ?_⟩
  intro s hs
  simpa using hs

/-- Witness for C7 at the gauge list `"0,15"`. -/
theorem c7_invalid_gauge_exits_witness :
    startupTrace "0,15" = [.printLine (invalidMsg "15"), .exited 1] ∧
    Effect.exited 1 ∈ startupTrace "0,15" ∧
    Effect.openSerial ∉ startupTrace "0,15" ∧
    (∀ s, Effect.printLine s ∈ startupTrace "0,15" → s = invalidMsg "15") :=
  c7_invalid_gauge_exits "0,15" "15" (by decide)

/-- Claim C8 (code bug): the write-timeout handler in `send` (lines 71-72)
does catch the exception, but it builds its diagnostic by calling `.format`
on a template whose placeholders are `%s` markers; `format` substitutes only
brace-delimited fields, so the message written to stderr is the literal
template and contains neither the timestamp nor the attempted command —
here evaluated for the command `"S00"` at a sample timestamp. -/
theorem c8_timeout_message_lacks_details :
    sendTimeoutMsg "2026-10-12 10:00:00" "S00"
      = "%s: serial timeout sending command: %s" ∧
    containsSeq "S00".data
        (sendTimeoutMsg "2026-10-12 10:00:00" "S00").data = false ∧
    containsSeq "2026-10-12 10:00:00".data
        (sendTimeoutMsg "2026-10-12 10:00:00" "S00").data = false := by
  refine ⟨rfl, by decide, by decide⟩

/-- Claim C9: `checksum` is the sum of the byte values modulo 256 (one byte),
hence invariant under any permutation of its input. -/
theorem c9_checksum_perm_invariant (l1 l2 : List Nat) (h : l1.Perm l2) :
    checksum l1 = l1.sum % 256 ∧ checksum l1 = checksum l2 := by
  refine ⟨checksum_eq l1, ?_⟩
  rw [checksum_eq, checksum_eq, h.sum_eq]

/-- Witness for C9 at `"AB"` and `"BA"`. -/
theorem c9_checksum_perm_invariant_witness :
    checksum [65, 66] = [65, 66].sum % 256 ∧
    checksum [65, 66] = checksum [66, 65] :=
  c9_checksum_perm_invariant [65, 66] [66, 65] (by decide)

/-- Claim C10: the startup validation accepts any entry whose Python
`int(...)` value lies in 0–9 — including non-canonical forms such as
`"05"`, `" 7"` and `"+3"` — and the polling loop builds the status command
by literal concatenation, so entry `"05"` yields the command `"S005"`. -/
theorem c10_lenient_validation :
    (∀ (g : String) (n : Int),
      pyInt g.data = some n → 0 ≤ n → n < 10 → gaugeOK g = true) ∧
    gaugeOK "05" = true ∧ gaugeOK " 7" = true ∧ gaugeOK "+3" = true ∧
    pollCmd "05" = "S005" := by
  refine ⟨?_, by decide, by decide, by decide, by decide⟩
  intro g n hp h0 h10
  unfold gaugeOK
  rw [hp]
  simp only [decide_eq_true_eq]
  exact ⟨h0, h10⟩

/-- Witness for C10 at the entry `" 7"`. -/
theorem c10_lenient_validation_witness : gaugeOK " 7" = true :=
  c10_lenient_validation.1 " 7" 7 (by decide) (by decide) (by decide)

end Inficon
